import Mathlib

/-!
Verification development for the ToDoBackend repository: a single-resource
task-list HTTP service (Express + Mongoose) with five operations
(create, list, get-by-id, update, delete) over a document store.

The repository ships src/index.js, src/config/database.js, and a
documentation file (src/unnamed/part_000) that embeds the code of the
Mongoose schema (toDoSchema), the route table (routes/todos.js) and the
documented request or response shapes of the controllers.  The controller
implementation files themselves (controllers/*.js) are not in src/, so
the service-level operations are modelled from the spec, as marked on the
corresponding definitions.  Timestamps are modelled as natural numbers,
the document store as a list of records, and ids as strings (MongoDB
ObjectId values are 24 hexadecimal characters).
-/

namespace ToDoBackend

/-- The Todo entity: the fields of toDoSchema (src/unnamed/part_000 lines
268-294) together with the store-assigned id.  title and description are
Strings, createdAt and updatedAt are timestamps (modelled as Nat). -/
structure Todo where
  id : String
  title : String
  description : String
  createdAt : Nat
  updatedAt : Nat
  deriving DecidableEq, Repr

/-- Whether a character is a hexadecimal digit, used for the well-formed
ObjectId check. -/
def isHexDigit (c : Char) : Bool :=
  c.isDigit || (('a' ≤ c) && (c ≤ 'f')) || (('A' ≤ c) && (c ≤ 'F'))

/-- A well-formed MongoDB ObjectId string: exactly 24 hexadecimal
characters.  Any other string is a malformed id. -/
def validObjectId (s : String) : Bool :=
  (s.length == 24) && s.toList.all isHexDigit

/-- Validity of one field under toDoSchema (src/unnamed/part_000 lines
268-294): the field is required (absent or empty fails, Mongoose treats
the empty string as missing for a required String path) and maxLength 50
(more than 50 characters fails). -/
def validField : Option String → Bool
  | none => false
  | some s => (decide (s ≠ "")) && (decide (s.length ≤ 50))

/-- The validation predicate of the Todo entity: both title and
description must satisfy the toDoSchema field constraints. -/
def validate (title descr : Option String) : Bool :=
  validField title && validField descr

/-- The condition under which the claim C1 predicts a validation failure:
the field is absent, empty, or longer than 50 characters. -/
def badField (f : Option String) : Prop :=
  f = none ∨ f = some "" ∨ ∃ s, f = some s ∧ 50 < s.length

/-- The failure taxonomy of the Resource Service results. -/
inductive FailureKind
  | Validation
  | NotFound
  | Internal
  deriving DecidableEq, Repr

/-- Tagged result of a Resource Service operation: Success with a payload,
or Failure with a kind and a message. -/
inductive SvcResult (α : Type)
  | Success (payload : α)
  | Failure (kind : FailureKind) (msg : String)
  deriving DecidableEq, Repr

/-- Modelled from the spec: the Persistence Port operation findById
(controllers/getTodo.js and models/Todo.js are absent from src/) — exact
match on id; malformed id values are treated as NotFound (here: none),
not as a fatal error. -/
def findById (db : List Todo) (id : String) : Option Todo :=
  if validObjectId id then db.find? (fun t => t.id == id) else none

/-- Modelled from the spec: the Persistence Port operation updateById
(controllers/updateTodo.js is absent from src/) — looks the record up by
id, replaces title and description with the given values, sets updatedAt
to now, and leaves id and createdAt untouched; returns the post-update
record and the post-update store, or none when the id is not found. -/
def updateById (db : List Todo) (id tt dd : String) (now : Nat) :
    Option (Todo × List Todo) :=
  match findById db id with
  | none => none
  | some t =>
    let t2 : Todo :=
      { id := t.id, title := tt, description := dd,
        createdAt := t.createdAt, updatedAt := now }
    some (t2, db.map (fun u => if u.id == id then t2 else u))

/-- Modelled from the spec: the Persistence Port operation deleteById
(controllers/deleteTodo.js is absent from src/) — removes the record with
the given id, or none when the id is not found. -/
def deleteById (db : List Todo) (id : String) : Option (List Todo) :=
  match findById db id with
  | none => none
  | some _ => some (db.filter (fun t => !(t.id == id)))

/-- Modelled from the spec: the Resource Service operation
create(title, description) (controllers/createTodo.js is absent from
src/) — runs the toDoSchema validation; on failure returns a Validation
failure and leaves the store untouched; on success inserts one record
whose id is store-assigned (passed here as nid) and whose createdAt and
updatedAt both receive the same creation-time default, per the toDoSchema
defaults in src/unnamed/part_000 lines 281-290. -/
def createTodo (db : List Todo) (title descr : Option String)
    (nid : String) (now : Nat) : SvcResult Todo × List Todo :=
  if validate title descr then
    let t : Todo :=
      { id := nid, title := title.getD "", description := descr.getD "",
        createdAt := now, updatedAt := now }
    (.Success t, db ++ [t])
  else
    (.Failure .Validation "ValidationError", db)

/-- Modelled from the spec: the Resource Service operation listAll
(controllers/getTodo.js is absent from src/) — returns every stored
record; an empty store is a valid success. -/
def getTodo (db : List Todo) : SvcResult (List Todo) :=
  .Success db

/-- Modelled from the spec: the Resource Service operation getById
(controllers/getTodo.js is absent from src/) — NotFound maps to a
NotFound failure with the documented message (src/unnamed/part_000 lines
434-440), otherwise Success with the record. -/
def getTodoById (db : List Todo) (id : String) : SvcResult Todo :=
  match findById db id with
  | none => .Failure .NotFound "no data find for given id"
  | some t => .Success t

/-- Modelled from the spec: the Resource Service operation
update(id, title, description) (controllers/updateTodo.js is absent from
src/) — no field validation is re-applied (title and description are
written as given); calls updateById with the current time; NotFound maps
to a NotFound failure; success returns the updated record. -/
def updateTodo (db : List Todo) (id tt dd : String) (now : Nat) :
    SvcResult Todo × List Todo :=
  match updateById db id tt dd now with
  | none => (.Failure .NotFound "no data find for given id", db)
  | some (t, db2) => (.Success t, db2)

/-- Modelled from the spec: the Resource Service operation deleteById
(controllers/deleteTodo.js is absent from src/) — NotFound maps to a
NotFound failure; success returns a confirmation marker with no payload. -/
def deleteTodo (db : List Todo) (id : String) : SvcResult Unit × List Todo :=
  match deleteById db id with
  | none => (.Failure .NotFound "no data find for given id", db)
  | some db2 => (.Success (), db2)

/-- The five operations of the HTTP surface, used to pick the
operation-specific failure envelope. -/
inductive Op
  | createOp
  | listOp
  | getOp
  | updateOp
  | deleteOp
  deriving DecidableEq, Repr

/-- The HTTP response envelope for failures: status code plus the
documented body fields (success flag, optional data field, optional error
field, message). -/
structure HttpResponse where
  status : Nat
  success : Bool
  data : Option String
  error : Option String
  message : String
  deriving DecidableEq, Repr

/-- Modelled from the spec: the failure mapping of the controllers
(controllers/*.js are absent from src/), with body shapes taken from the
documented response listings in src/unnamed/part_000: a NotFound failure
maps to 404 with body success false and the failure message (lines
434-440); every other failure maps to 500, where the create controller
answers with data "internal server error" and the failure message in the
message field (lines 351-358), and the list, get, update and delete
controllers answer with the failure message in the error field and the
constant message "Server Error" (lines 399-406, 484-491, 523-530). -/
def failureResponse (op : Op) (k : FailureKind) (msg : String) : HttpResponse :=
  match k with
  | .NotFound =>
    { status := 404, success := false, data := none, error := none,
      message := msg }
  | _ =>
    match op with
    | .createOp =>
      { status := 500, success := false, data := some "internal server error",
        error := none, message := msg }
    | _ =>
      { status := 500, success := false, data := none, error := some msg,
        message := "Server Error" }

/-- HTTP methods used by the route table. -/
inductive Method
  | GET
  | POST
  | PUT
  | DELETE
  deriving DecidableEq, Repr

/-- The dispatch outcome of the application: one of the five resource
operations, the home-page route of src/index.js, or the not-found
default of the framework for unmatched requests. -/
inductive Route
  | createTodosR
  | getTodosR
  | getTodoR (id : String)
  | updateTodoR (id : String)
  | deleteTodoR (id : String)
  | homePage
  | notFoundDefault
  deriving DecidableEq, Repr

/-- Whether a dispatch outcome is one of the five resource operations. -/
def isOperation : Route → Bool
  | .createTodosR => true
  | .getTodosR => true
  | .getTodoR _ => true
  | .updateTodoR _ => true
  | .deleteTodoR _ => true
  | _ => false

/-- The route dispatch of the application, over the path split into
segments: the router of routes/todos.js (src/unnamed/part_000 lines
549-566) mounted at /api/v1 (src/index.js line 15), the home-page route
GET / registered in src/index.js lines 28-30, and the framework default
for everything else.  A path parameter such as :id matches exactly one
segment. -/
def dispatch (m : Method) (segs : List String) : Route :=
  match m, segs with
  | .POST, ["api", "v1", "createTodos"] => .createTodosR
  | .GET, ["api", "v1", "getTodos"] => .getTodosR
  | .GET, ["api", "v1", "getTodo", id] => .getTodoR id
  | .PUT, ["api", "v1", "updateTodo", id] => .updateTodoR id
  | .DELETE, ["api", "v1", "deleteTodo", id] => .deleteTodoR id
  | .GET, [] => .homePage
  | _, _ => .notFoundDefault

/-- The top-level actions of src/index.js, in the order the module
executes them. -/
inductive StartupAction
  | loadEnvConfig
  | useJsonBodyMiddleware
  | mountApiRoutes
  | listen
  | dbConnect
  | registerHomeRoute
  deriving DecidableEq, BEq, Repr

/-- The execution order of src/index.js (lines 5-30): dotenv.config, the
json body middleware, mounting the /api/v1 routes, app.listen, then
dbConnect, then registering the home route. -/
def startupSequence : List StartupAction :=
  [.loadEnvConfig, .useJsonBodyMiddleware, .mountApiRoutes,
   .listen, .dbConnect, .registerHomeRoute]

/-- Statements of the catch handler of dbConnect in
src/config/database.js, as far as their effects matter: a literal
console.log, a console.log of a member of a variable (which throws a
ReferenceError when the variable is not bound), calling process.env as a
function (a TypeError, process.env is an object), and process.exit. -/
inductive Stmt
  | logLit (s : String)
  | logVarMember (v : String) (member : String)
  | callProcessEnvAsFn (arg : Nat)
  | exitProcess (code : Nat)
  deriving DecidableEq, Repr

/-- Outcome of running a catch handler to completion. -/
inductive HandlerOutcome
  | exited (code : Nat)
  | threwReferenceError (name : String)
  | threwTypeError (descr : String)
  | returnedNormally
  deriving DecidableEq, Repr

/-- Effect of one statement given the bound variable names: none means
execution continues with the next statement. -/
def runStmt (bound : List String) : Stmt → Option HandlerOutcome
  | .logLit _ => none
  | .logVarMember v _ =>
    if bound.contains v then none else some (.threwReferenceError v)
  | .callProcessEnvAsFn _ => some (.threwTypeError "process.env is not a function")
  | .exitProcess c => some (.exited c)

/-- Run a statement list to completion: the first statement that exits or
throws determines the outcome, otherwise the handler returns normally. -/
def runHandler (bound : List String) : List Stmt → HandlerOutcome
  | [] => .returnedNormally
  | s :: rest =>
    match runStmt bound s with
    | some o => o
    | none => runHandler bound rest

/-- The catch handler as written in src/config/database.js lines 9-12:
the callback binds no parameter, logs a literal, logs error.message with
error unbound, then calls process.env(1). -/
def srcCatchBody : List Stmt :=
  [.logLit "issue in connection",
   .logVarMember "error" "message",
   .callProcessEnvAsFn 1]

/-- The parameter list of the catch callback in src/config/database.js:
it binds nothing. -/
def srcCatchBound : List String := []

/-- The catch handler as the repository documents it
(src/unnamed/part_000 lines 194-198): the callback binds error, logs a
literal, logs error.message, then calls process.exit(1). -/
def docCatchBody : List Stmt :=
  [.logLit "Issue in connection",
   .logVarMember "error" "message",
   .exitProcess 1]

/-- The parameter list of the documented catch callback: it binds error. -/
def docCatchBound : List String := ["error"]

/-- A sample stored record used to instantiate theorems at a concrete
store. -/
def sampleStoredTodo : Todo :=
  { id := "0123456789abcdef01234567", title := "old title",
    description := "old description", createdAt := 1, updatedAt := 2 }

/-- A 60-character title, longer than the 50-character schema bound. -/
def overlongTitle : String :=
  "xxxxxxxxxxxxxxxxxxxxxxxxxxxxxxxxxxxxxxxxxxxxxxxxxxxxxxxxxxx!"

/-- A field satisfying badField fails the toDoSchema field validation. -/
theorem validField_eq_false_of_badField (f : Option String) (h : badField f) :
    validField f = false := by
  rcases h with h | h | ⟨s, hf, hs⟩
  · subst h; rfl
  · subst h; rfl
  · subst hf
    have hns : ¬ s.length ≤ 50 := by omega
    simp [validField, hns]

/-- When no stored record carries the requested id, findById yields none. -/
theorem findById_eq_none_of_not_stored (db : List Todo) (id : String)
    (h : ∀ t ∈ db, t.id ≠ id) : findById db id = none := by
  unfold findById
  split
  · apply List.find?_eq_none.mpr
    intro t ht
    simp only [beq_iff_eq]
    exact h t ht
  · rfl

/-- A record returned by findById is stored and carries the requested id. -/
theorem mem_of_findById_eq_some (db : List Todo) (id : String) (t : Todo)
    (h : findById db id = some t) : t ∈ db ∧ t.id = id := by
  unfold findById at h
  split at h
  · refine ⟨List.mem_of_find?_eq_some h, ?_⟩
    have hp := List.find?_some h
    simpa [beq_iff_eq] using hp
  · cases h

/-- Searching an appended fresh record finds it when nothing before it
matches. -/
theorem find?_append_fresh (db : List Todo) (nid : String) (t : Todo)
    (hfresh : ∀ u ∈ db, u.id ≠ nid) (ht : t.id = nid) :
    (db ++ [t]).find? (fun u => u.id == nid) = some t := by
  induction db with
  | nil => simp [List.find?, ht]
  | cons a as ih =>
    have step : List.find? (fun u => u.id == nid) (a :: (as ++ [t]))
        = List.find? (fun u => u.id == nid) (as ++ [t]) := by
      apply List.find?_cons_of_neg
      simpa using hfresh a (List.mem_cons_self a as)
    rw [List.cons_append, step]
    exact ih (fun u hu => hfresh u (List.mem_cons_of_mem a hu))

/-- Claim C1: for every (title, description) pair where either field is
absent, empty, or longer than 50 characters, create returns a Validation
failure and performs zero store writes (the store is returned unchanged). -/
theorem createTodo_invalid_rejected (db : List Todo)
    (title descr : Option String) (nid : String) (now : Nat)
    (h : badField title ∨ badField descr) :
    (createTodo db title descr nid now).1
        = .Failure .Validation "ValidationError"
    ∧ (createTodo db title descr nid now).2 = db := by
  have hv : validate title descr = false := by
    rcases h with h | h
    · simp [validate, validField_eq_false_of_badField _ h]
    · simp [validate, validField_eq_false_of_badField _ h]
  simp [createTodo, hv]

/-- Witness for C1 at a concrete input: title absent. -/
theorem createTodo_invalid_rejected_witness :
    (badField none ∨ badField (some "milk"))
    ∧ ((createTodo [] none (some "milk") "0123456789abcdef01234567" 5).1
          = .Failure .Validation "ValidationError"
        ∧ (createTodo [] none (some "milk") "0123456789abcdef01234567" 5).2
          = []) :=
  ⟨Or.inl (Or.inl rfl),
   createTodo_invalid_rejected [] none (some "milk")
     "0123456789abcdef01234567" 5 (Or.inl (Or.inl rfl))⟩

/-- Claim C2: for every id that does not identify a stored Todo, getById,
update and deleteById all return a NotFound failure (so never a Success
and never an Internal failure), and the store is unchanged. -/
theorem notFound_consistency (db : List Todo) (id tt dd : String) (now : Nat)
    (h : ∀ t ∈ db, t.id ≠ id) :
    getTodoById db id = .Failure .NotFound "no data find for given id"
    ∧ updateTodo db id tt dd now
        = (.Failure .NotFound "no data find for given id", db)
    ∧ deleteTodo db id
        = (.Failure .NotFound "no data find for given id", db) := by
  have hf := findById_eq_none_of_not_stored db id h
  refine ⟨?_, ?_, ?_⟩ <;>
    simp [getTodoById, updateTodo, updateById, deleteTodo, deleteById, hf]

/-- Witness for C2 at a concrete input: the empty store. -/
theorem notFound_consistency_witness :
    (∀ t ∈ ([] : List Todo), t.id ≠ "a1b2c3")
    ∧ (getTodoById [] "a1b2c3"
          = .Failure .NotFound "no data find for given id"
        ∧ updateTodo [] "a1b2c3" "t" "d" 9
          = (.Failure .NotFound "no data find for given id", [])
        ∧ deleteTodo [] "a1b2c3"
          = (.Failure .NotFound "no data find for given id", [])) :=
  ⟨by simp, notFound_consistency [] "a1b2c3" "t" "d" 9 (by simp)⟩

/-- Claim C3: a successful update of a stored record writes title and
description exactly as given (no validation is re-applied: the statement
holds for every tt and dd), keeps id and createdAt, and sets updatedAt to
now, strictly later than the prior updatedAt. -/
theorem updateTodo_success_semantics (db : List Todo) (id tt dd : String)
    (now : Nat) (t : Todo) (hfound : findById db id = some t)
    (hlater : t.updatedAt < now) :
    ∃ t2, (updateTodo db id tt dd now).1 = .Success t2
      ∧ t2.id = t.id ∧ t2.title = tt ∧ t2.description = dd
      ∧ t2.createdAt = t.createdAt ∧ t2.updatedAt = now
      ∧ t.updatedAt < t2.updatedAt
      ∧ (updateTodo db id tt dd now).2
          = db.map (fun u => if u.id == id then t2 else u) := by
  refine ⟨{ id := t.id, title := tt, description := dd,
            createdAt := t.createdAt, updatedAt := now }, ?_⟩
  simp [updateTodo, updateById, hfound, hlater]

/-- Witness for C3 at a concrete input: the new title is 60 characters
long, so the write is performed with no validation re-applied. -/
theorem updateTodo_success_semantics_witness :
    (findById [sampleStoredTodo] "0123456789abcdef01234567"
        = some sampleStoredTodo
      ∧ sampleStoredTodo.updatedAt < 3)
    ∧ (∃ t2, (updateTodo [sampleStoredTodo] "0123456789abcdef01234567"
            overlongTitle "d2" 3).1 = .Success t2
        ∧ t2.id = sampleStoredTodo.id ∧ t2.title = overlongTitle
        ∧ t2.description = "d2"
        ∧ t2.createdAt = sampleStoredTodo.createdAt ∧ t2.updatedAt = 3
        ∧ sampleStoredTodo.updatedAt < t2.updatedAt
        ∧ (updateTodo [sampleStoredTodo] "0123456789abcdef01234567"
              overlongTitle "d2" 3).2
            = [sampleStoredTodo].map
                (fun u => if u.id == "0123456789abcdef01234567" then t2 else u)) :=
  ⟨⟨by decide, by decide⟩,
   updateTodo_success_semantics [sampleStoredTodo] "0123456789abcdef01234567"
     overlongTitle "d2" 3 sampleStoredTodo (by decide) (by decide)⟩

/-- Claim C4: creating a valid Todo and fetching it by the returned id
yields a record with identical title and description whose createdAt
equals its updatedAt. -/
theorem create_then_get_roundtrip (db : List Todo) (ti de nid : String)
    (now : Nat)
    (hvalid : validate (some ti) (some de) = true)
    (hwf : validObjectId nid = true)
    (hfresh : ∀ u ∈ db, u.id ≠ nid) :
    ∃ t, (createTodo db (some ti) (some de) nid now).1 = .Success t
      ∧ getTodoById (createTodo db (some ti) (some de) nid now).2 nid
          = .Success t
      ∧ t.title = ti ∧ t.description = de ∧ t.createdAt = t.updatedAt := by
  refine ⟨⟨nid, ti, de, now, now⟩, ?_, ?_, rfl, rfl, rfl⟩
  · simp [createTodo, hvalid]
  · have h2 : (createTodo db (some ti) (some de) nid now).2
        = db ++ [⟨nid, ti, de, now, now⟩] := by
      simp [createTodo, hvalid]
    rw [h2]
    have hfind : findById (db ++ [⟨nid, ti, de, now, now⟩]) nid
        = some ⟨nid, ti, de, now, now⟩ := by
      unfold findById
      simp only [hwf, if_true]
      exact find?_append_fresh db nid _ hfresh rfl
    simp [getTodoById, hfind]

/-- Witness for C4 at a concrete input. -/
theorem create_then_get_roundtrip_witness :
    (validate (some "Buy groceries") (some "Milk, eggs, bread") = true
      ∧ validObjectId "0123456789abcdef01234567" = true
      ∧ (∀ u ∈ ([] : List Todo), u.id ≠ "0123456789abcdef01234567"))
    ∧ (∃ t, (createTodo [] (some "Buy groceries") (some "Milk, eggs, bread")
            "0123456789abcdef01234567" 7).1 = .Success t
        ∧ getTodoById (createTodo [] (some "Buy groceries")
              (some "Milk, eggs, bread") "0123456789abcdef01234567" 7).2
              "0123456789abcdef01234567"
            = .Success t
        ∧ t.title = "Buy groceries" ∧ t.description = "Milk, eggs, bread"
        ∧ t.createdAt = t.updatedAt) :=
  ⟨⟨by decide, by decide, by simp⟩,
   create_then_get_roundtrip [] "Buy groceries" "Milk, eggs, bread"
     "0123456789abcdef01234567" 7 (by decide) (by decide) (by simp)⟩

/-- Claim C5: the invariant createdAt ≤ updatedAt holds after every
mutating operation (the two read operations do not touch the store);
createTodo assigns createdAt only to the new record, with createdAt and
updatedAt both equal to the creation time; update never changes the
createdAt or id of any record; delete only removes records; and a
successful update sets the updatedAt of the returned record to the
current time. -/
theorem timestamps_invariant (db : List Todo) (ti de : Option String)
    (nid id tt dd : String) (now : Nat)
    (hdb : ∀ t ∈ db, t.createdAt ≤ t.updatedAt)
    (hnow : ∀ t ∈ db, t.updatedAt ≤ now) :
    (∀ t ∈ (createTodo db ti de nid now).2, t.createdAt ≤ t.updatedAt)
    ∧ (∀ t ∈ (updateTodo db id tt dd now).2, t.createdAt ≤ t.updatedAt)
    ∧ (∀ t ∈ (deleteTodo db id).2, t.createdAt ≤ t.updatedAt)
    ∧ (∀ t ∈ (createTodo db ti de nid now).2,
        t ∈ db ∨ (t.id = nid ∧ t.createdAt = now ∧ t.updatedAt = now))
    ∧ (∀ t2 ∈ (updateTodo db id tt dd now).2,
        ∃ t1 ∈ db, t2.id = t1.id ∧ t2.createdAt = t1.createdAt)
    ∧ (∀ t2 ∈ (deleteTodo db id).2, t2 ∈ db)
    ∧ (∀ p, (updateTodo db id tt dd now).1 = .Success p →
        p.updatedAt = now) := by
  have hcreate2 : ∀ t ∈ (createTodo db ti de nid now).2,
      t ∈ db ∨ (t.id = nid ∧ t.createdAt = now ∧ t.updatedAt = now) := by
    intro t ht
    by_cases hv : validate ti de
    · simp only [createTodo, hv, if_true] at ht
      rcases List.mem_append.mp ht with h | h
      · exact Or.inl h
      · right
        rcases List.mem_singleton.mp h with rfl
        exact ⟨rfl, rfl, rfl⟩
    · simp only [createTodo, hv, if_false] at ht
      exact Or.inl ht
  refine ⟨?_, ?_, ?_, hcreate2, ?_, ?_, ?_⟩
  · intro t ht
    rcases hcreate2 t ht with h | ⟨_, hc, hu⟩
    · exact hdb t h
    · rw [hc, hu]
  · intro t2 ht2
    cases hfd : findById db id with
    | none => simp only [updateTodo, updateById, hfd] at ht2; exact hdb t2 ht2
    | some t =>
      simp only [updateTodo, updateById, hfd] at ht2
      rcases List.mem_map.mp ht2 with ⟨u, hu, hfu⟩
      by_cases hid : (u.id == id) = true
      · rw [if_pos hid] at hfu
        obtain ⟨htmem, -⟩ := mem_of_findById_eq_some db id t hfd
        rw [← hfu]
        exact le_trans (hdb t htmem) (hnow t htmem)
      · rw [if_neg hid] at hfu
        rw [← hfu]
        exact hdb u hu
  · intro t2 ht2
    cases hfd : findById db id with
    | none => simp only [deleteTodo, deleteById, hfd] at ht2; exact hdb t2 ht2
    | some t =>
      simp only [deleteTodo, deleteById, hfd] at ht2
      exact hdb t2 (List.mem_of_mem_filter ht2)
  · intro t2 ht2
    cases hfd : findById db id with
    | none =>
      simp only [updateTodo, updateById, hfd] at ht2
      exact ⟨t2, ht2, rfl, rfl⟩
    | some t =>
      simp only [updateTodo, updateById, hfd] at ht2
      rcases List.mem_map.mp ht2 with ⟨u, hu, hfu⟩
      by_cases hid : (u.id == id) = true
      · rw [if_pos hid] at hfu
        obtain ⟨htmem, -⟩ := mem_of_findById_eq_some db id t hfd
        exact ⟨t, htmem, by rw [← hfu], by rw [← hfu]⟩
      · rw [if_neg hid] at hfu
        exact ⟨u, hu, by rw [← hfu], by rw [← hfu]⟩
  · intro t2 ht2
    cases hfd : findById db id with
    | none => simpa only [deleteTodo, deleteById, hfd] using ht2
    | some t =>
      simp only [deleteTodo, deleteById, hfd] at ht2
      exact List.mem_of_mem_filter ht2
  · intro p hp
    cases hfd : findById db id with
    | none => simp [updateTodo, updateById, hfd] at hp
    | some t =>
      simp only [updateTodo, updateById, hfd, SvcResult.Success.injEq] at hp
      rw [← hp]

/-- Witness for C5 at a concrete input: a singleton store. -/
theorem timestamps_invariant_witness :
    ((∀ t ∈ [sampleStoredTodo], t.createdAt ≤ t.updatedAt)
      ∧ (∀ t ∈ [sampleStoredTodo], t.updatedAt ≤ 4))
    ∧ ((∀ t ∈ (createTodo [sampleStoredTodo] (some "a") (some "b")
            "ffffffffffffffffffffffff" 4).2, t.createdAt ≤ t.updatedAt)
      ∧ (∀ t ∈ (updateTodo [sampleStoredTodo] "0123456789abcdef01234567"
            "t" "d" 4).2, t.createdAt ≤ t.updatedAt)
      ∧ (∀ t ∈ (deleteTodo [sampleStoredTodo] "0123456789abcdef01234567").2,
          t.createdAt ≤ t.updatedAt)
      ∧ (∀ t ∈ (createTodo [sampleStoredTodo] (some "a") (some "b")
            "ffffffffffffffffffffffff" 4).2,
          t ∈ [sampleStoredTodo]
            ∨ (t.id = "ffffffffffffffffffffffff" ∧ t.createdAt = 4
                ∧ t.updatedAt = 4))
      ∧ (∀ t2 ∈ (updateTodo [sampleStoredTodo] "0123456789abcdef01234567"
            "t" "d" 4).2,
          ∃ t1 ∈ [sampleStoredTodo], t2.id = t1.id
            ∧ t2.createdAt = t1.createdAt)
      ∧ (∀ t2 ∈ (deleteTodo [sampleStoredTodo]
            "0123456789abcdef01234567").2, t2 ∈ [sampleStoredTodo])
      ∧ (∀ p, (updateTodo [sampleStoredTodo] "0123456789abcdef01234567"
            "t" "d" 4).1 = .Success p → p.updatedAt = 4)) :=
  ⟨⟨by decide, by decide⟩,
   timestamps_invariant [sampleStoredTodo] (some "a") (some "b")
     "ffffffffffffffffffffffff" "0123456789abcdef01234567" "t" "d" 4
     (by decide) (by decide)⟩

/-- C6 counterexample: a Validation failure on the create operation is
answered with status 500, but its body does not carry the constant
message "Server Error" (the create controller puts the failure message in
the message field and the constant "internal server error" in the data
field), so the claimed envelope shape fails on create requests. -/
theorem createTodo_failure_envelope_counterexample :
    (failureResponse .createOp .Validation "ValidationError").status = 500
    ∧ (failureResponse .createOp .Validation "ValidationError").message
        ≠ "Server Error"
    ∧ (failureResponse .createOp .Validation "ValidationError").data
        ≠ some "ValidationError"
    ∧ (failureResponse .createOp .Validation "ValidationError").error
        ≠ some "ValidationError" := by
  refine ⟨rfl, ?_, ?_, ?_⟩ <;> decide

/-- Claim C6 as amended: every Validation or Internal failure is answered
with status 500 and success false, and validation failures are never
distinguished with a 400 status; the 500 body carries the failure message
in the error field with the constant message "Server Error" on the list,
get, update and delete operations, while on create it carries the
constant data "internal server error" with the failure message in the
message field. -/
theorem failure_envelope_mapping (op : Op) (k : FailureKind) (msg : String)
    (hk : k = .Validation ∨ k = .Internal) :
    (failureResponse op k msg).status = 500
    ∧ (failureResponse op k msg).success = false
    ∧ (op = .createOp →
        (failureResponse op k msg).data = some "internal server error"
        ∧ (failureResponse op k msg).message = msg)
    ∧ (op ≠ .createOp →
        (failureResponse op k msg).error = some msg
        ∧ (failureResponse op k msg).message = "Server Error") := by
  rcases hk with rfl | rfl <;> cases op <;> simp [failureResponse]

/-- Witness for the amended C6 at a concrete input. -/
theorem failure_envelope_mapping_witness :
    ((FailureKind.Validation = FailureKind.Validation
        ∨ FailureKind.Validation = FailureKind.Internal))
    ∧ ((failureResponse .listOp .Validation "boom").status = 500
      ∧ (failureResponse .listOp .Validation "boom").success = false
      ∧ (Op.listOp = Op.createOp →
          (failureResponse .listOp .Validation "boom").data
              = some "internal server error"
          ∧ (failureResponse .listOp .Validation "boom").message = "boom")
      ∧ (Op.listOp ≠ Op.createOp →
          (failureResponse .listOp .Validation "boom").error = some "boom"
          ∧ (failureResponse .listOp .Validation "boom").message
              = "Server Error")) :=
  ⟨Or.inl rfl, failure_envelope_mapping .listOp .Validation "boom" (Or.inl rfl)⟩

/-- Claim C7: a malformed id (one that is not a well-formed ObjectId and
so cannot identify any record) makes getById answer a NotFound failure,
which the HTTP layer maps to status 404, not to the 500 of an Internal
failure. -/
theorem malformed_id_treated_as_notFound (db : List Todo) (id : String)
    (hmal : validObjectId id = false) :
    getTodoById db id = .Failure .NotFound "no data find for given id"
    ∧ (failureResponse .getOp .NotFound "no data find for given id").status
        = 404
    ∧ (failureResponse .getOp .NotFound "no data find for given id").status
        ≠ 500 := by
  refine ⟨?_, rfl, by decide⟩
  have hf : findById db id = none := by
    simp [findById, hmal]
  simp [getTodoById, hf]

/-- Witness for C7 at a concrete input: the malformed id "abc". -/
theorem malformed_id_treated_as_notFound_witness :
    (validObjectId "abc" = false)
    ∧ (getTodoById [sampleStoredTodo] "abc"
          = .Failure .NotFound "no data find for given id"
      ∧ (failureResponse .getOp .NotFound "no data find for given id").status
          = 404
      ∧ (failureResponse .getOp .NotFound "no data find for given id").status
          ≠ 500) :=
  ⟨by decide, malformed_id_treated_as_notFound [sampleStoredTodo] "abc"
    (by decide)⟩

/-- Claim C8, the divergence between code and documentation: the catch
handler of dbConnect as written in src/config/database.js stops with a
ReferenceError (the callback binds no parameter yet reads error.message)
and never reaches an exit; even its next statement, process.env(1), is a
TypeError and not an exit; the handler the repository documents
(src/unnamed/part_000 lines 194-198, and its fix list item 8) instead
terminates the process with exit code 1. -/
theorem dbConnect_catch_diverges_from_docs :
    runHandler srcCatchBound srcCatchBody = .threwReferenceError "error"
    ∧ runHandler srcCatchBound srcCatchBody ≠ .exited 1
    ∧ runHandler srcCatchBound
        [.logLit "issue in connection", .callProcessEnvAsFn 1]
        = .threwTypeError "process.env is not a function"
    ∧ runHandler docCatchBound docCatchBody = .exited 1 := by
  refine ⟨rfl, by decide, rfl, rfl⟩

/-- C9 counterexample: the request GET / is dispatched to the home-page
route of src/index.js, which is not one of the five resource operations
and is not the not-found default, so not every non-operation request
falls through to the not-found default. -/
theorem dispatch_home_page_counterexample :
    isOperation (dispatch .GET []) = false
    ∧ dispatch .GET [] ≠ .notFoundDefault
    ∧ dispatch .GET [] = .homePage := by
  refine ⟨rfl, by decide, rfl⟩

/-- Claim C9 as amended: the five documented method and path combinations
are dispatched to the five operations, and every other combination falls
through to the not-found default, with the single exception of GET /,
which src/index.js serves as a static home page. -/
theorem dispatch_exhaustive (m : Method) (segs : List String) (id : String) :
    (isOperation (dispatch m segs) = true
      ∨ (m = .GET ∧ segs = [] ∧ dispatch m segs = .homePage)
      ∨ dispatch m segs = .notFoundDefault)
    ∧ dispatch .POST ["api", "v1", "createTodos"] = .createTodosR
    ∧ dispatch .GET ["api", "v1", "getTodos"] = .getTodosR
    ∧ dispatch .GET ["api", "v1", "getTodo", id] = .getTodoR id
    ∧ dispatch .PUT ["api", "v1", "updateTodo", id] = .updateTodoR id
    ∧ dispatch .DELETE ["api", "v1", "deleteTodo", id] = .deleteTodoR id := by
  refine ⟨?_, rfl, rfl, rfl, rfl, rfl⟩
  unfold dispatch
  split <;> simp [isOperation]

/-- Claim C10: in the execution order of src/index.js, the api routes are
mounted and the server starts listening before dbConnect is called, so
the listener is accepting and dispatching requests before the store
connection is even initiated. -/
theorem listen_precedes_dbConnect :
    startupSequence.indexOf .listen < startupSequence.indexOf .dbConnect
    ∧ startupSequence.indexOf .mountApiRoutes
        < startupSequence.indexOf .listen := by
  decide

end ToDoBackend
